import Mathlib

/-!
Verification development for the `discord-economy-super` ledger & cooldown
engine (file-backed JSON record store, balance ledger, cooldown gate, shop
engine).  The definitions below are a shallow embedding of the JavaScript
source: the persisted JSON document becomes an association list from guild
IDs to guild records, every operation takes the document snapshot it reads
(`JSON.parse(readFileSync(...))`) as an explicit argument and returns the
document it writes back (`writeFileSync`), and `Date.now()` / the formatted
date become explicit parameters.  JavaScript numbers stored in the document
are modelled as `Int`; a JSON `null` (including a persisted `NaN`, which
`JSON.stringify` serializes as `null`) is modelled as `Option.none`.
-/

set_option autoImplicit false

namespace Economy

/-- Association-list read: models `obj[key]` on a parsed JSON object
(`none` = the key is absent, i.e. `undefined`). -/
def aget {α : Type} : List (String × α) → String → Option α
  | [], _ => none
  | (k, v) :: rest, key => if k = key then some v else aget rest key

/-- Association-list write: models `obj[key] = value` (overwrites an existing
key in place, appends a fresh key). -/
def aset {α : Type} : List (String × α) → String → α → List (String × α)
  | [], key, value => [(key, value)]
  | (k, v) :: rest, key, value =>
      if k = key then (key, value) :: rest else (k, v) :: aset rest key value

theorem aget_aset_self {α : Type} (l : List (String × α)) (k : String) (v : α) :
    aget (aset l k v) k = some v := by
  induction l with
  | nil => simp [aget, aset]
  | cons hd tl ih =>
      by_cases h : hd.1 = k
      · simp [aget, aset, h]
      · simp [aget, aset, h, ih]

/-- An item record inside a guild's `shop` array. -/
structure ShopItem where
  id : Int
  itemName : String
  price : Int
  message : String
  description : String
  maxAmount : Option Int
  role : Option String
  date : String
deriving DecidableEq

/-- An item record inside a member's `inventory` array (a copy of the shop
item's fields made by `shop.buy`, with its own sequential `id`). -/
structure InventoryItem where
  id : Int
  itemName : String
  price : Int
  message : String
  role : Option String
  maxAmount : Option Int
  date : String
deriving DecidableEq

/-- A purchase-log record inside a member's `history` array. -/
structure HistoryItem where
  id : Int
  memberID : String
  guildID : String
  itemName : String
  price : Int
  role : Option String
  maxAmount : Option Int
  date : String
deriving DecidableEq

/-- A member record, i.e. `obj[guildID][memberID]`.  Every write performed by
the source produces exactly these seven fields.  `money`/`bank` are `none`
when the stored JSON value is `null` (a persisted `NaN`); cooldowns are
`none` when the stored value is `null`. -/
structure MemberRecord where
  dailyCooldown : Option Int
  workCooldown : Option Int
  weeklyCooldown : Option Int
  money : Option Int
  bank : Option Int
  inventory : List InventoryItem
  history : List HistoryItem
deriving DecidableEq

/-- A guild record, i.e. `obj[guildID]`: member records keyed by member ID,
plus the `shop` array (absent shop is modelled as the empty list, matching
the source's uniform `obj[guildID]?.shop || []` read). -/
structure GuildRecord where
  members : List (String × MemberRecord)
  shop : List ShopItem
deriving DecidableEq

/-- The whole persisted JSON document, keyed by guild ID. -/
abbrev Doc := List (String × GuildRecord)

/-- `obj[guildID]` -/
def getGuild (d : Doc) (g : String) : Option GuildRecord := aget d g

/-- `obj[guildID]?.[memberID]` -/
def getMember (d : Doc) (g m : String) : Option MemberRecord :=
  (getGuild d g).bind (fun gr => aget gr.members m)

/-- `obj[guildID]?.shop || []` -/
def shopOf (d : Doc) (g : String) : List ShopItem :=
  ((getGuild d g).map (fun gr => gr.shop)).getD []

/-- Models `x || null` on a stored timestamp: JavaScript treats the number
`0` as falsy, so a stored `0` reads back as `null`. -/
def truthyTime (o : Option Int) : Option Int :=
  o.bind (fun t => if t = 0 then none else some t)

/-- Models `Number(x || 0)` on a stored balance: `undefined` and `null`
(and `0` itself) all read as `0`. -/
def orZero (o : Option Int) : Int := o.getD 0

/-- The guarded member write used by the balance, cooldown and buy paths:
`if (!obj[guildID]) obj[guildID] = {}` followed by
`obj[guildID][memberID] = record`. -/
def setMember (d : Doc) (g m : String) (r : MemberRecord) : Doc :=
  let gr := (getGuild d g).getD { members := [], shop := [] }
  aset d g { gr with members := aset gr.members m r }

/-- The unguarded member write `obj[guildID][memberID] = record` used by
`shop.clearInventory`, `shop.clearHistory` and `shop.useItem`: when the
guild key is absent, `obj[guildID]` is `undefined` and the property
assignment throws a `TypeError`, modelled as `none`. -/
def setMemberRaw (d : Doc) (g m : String) (r : MemberRecord) : Option Doc :=
  (getGuild d g).map (fun gr => aset d g { gr with members := aset gr.members m r })

/-- `fetch(memberID, guildID)`: `Number(all()[guildID]?.[memberID]?.money || 0)`. -/
def fetch (d : Doc) (m g : String) : Int :=
  orZero ((getMember d g m).bind (fun r => r.money))

/-- `bankFetch(memberID, guildID)`: `Number(all()[guildID]?.[memberID]?.bank || 0)`. -/
def bankFetch (d : Doc) (m g : String) : Int :=
  orZero ((getMember d g m).bind (fun r => r.bank))

/-- `getDailyCooldown(memberID, guildID)`: `all()[guildID]?.[memberID]?.dailyCooldown || null`. -/
def getDailyCooldown (d : Doc) (m g : String) : Option Int :=
  truthyTime ((getMember d g m).bind (fun r => r.dailyCooldown))

/-- `getWorkCooldown(memberID, guildID)`. -/
def getWorkCooldown (d : Doc) (m g : String) : Option Int :=
  truthyTime ((getMember d g m).bind (fun r => r.workCooldown))

/-- `getWeeklyCooldown(memberID, guildID)`. -/
def getWeeklyCooldown (d : Doc) (m g : String) : Option Int :=
  truthyTime ((getMember d g m).bind (fun r => r.weeklyCooldown))

/-- `shop.inventory(memberID, guildID)`: `obj[guildID]?.[memberID]?.inventory || []`. -/
def inventory (d : Doc) (m g : String) : List InventoryItem :=
  ((getMember d g m).map (fun r => r.inventory)).getD []

/-- `shop.history(memberID, guildID)`: `obj[guildID]?.[memberID]?.history || []`. -/
def history (d : Doc) (m g : String) : List HistoryItem :=
  ((getMember d g m).map (fun r => r.history)).getD []

/-- `set(amount, memberID, guildID, reason)`: rewrites the full member record
with `money = Number(amount)` and returns `Number(amount)`. -/
def set (amount : Int) (m g : String) (d : Doc) : Int × Doc :=
  let r : MemberRecord := {
    dailyCooldown := getDailyCooldown d m g
    workCooldown := getWorkCooldown d m g
    weeklyCooldown := getWeeklyCooldown d m g
    money := some amount
    bank := some (bankFetch d m g)
    inventory := inventory d m g
    history := history d m g }
  (amount, setMember d g m r)

/-- `add(amount, memberID, guildID, reason)`: reads
`money = obj[guildID]?.[memberID]?.money || 0`, stores
`Number(money) + Number(amount)` and returns `Number(amount)`. -/
def add (amount : Int) (m g : String) (d : Doc) : Int × Doc :=
  let money := orZero ((getMember d g m).bind (fun r => r.money))
  let r : MemberRecord := {
    dailyCooldown := getDailyCooldown d m g
    workCooldown := getWorkCooldown d m g
    weeklyCooldown := getWeeklyCooldown d m g
    money := some (money + amount)
    bank := some (bankFetch d m g)
    inventory := inventory d m g
    history := history d m g }
  (amount, setMember d g m r)

/-- `subtract(amount, memberID, guildID, reason)`: stores
`Number(money) - Number(amount)` and returns `Number(amount)`. -/
def subtract (amount : Int) (m g : String) (d : Doc) : Int × Doc :=
  let money := orZero ((getMember d g m).bind (fun r => r.money))
  let r : MemberRecord := {
    dailyCooldown := getDailyCooldown d m g
    workCooldown := getWorkCooldown d m g
    weeklyCooldown := getWeeklyCooldown d m g
    money := some (money - amount)
    bank := some (bankFetch d m g)
    inventory := inventory d m g
    history := history d m g }
  (amount, setMember d g m r)

/-- `bankSet(amount, memberID, guildID, reason)`. -/
def bankSet (amount : Int) (m g : String) (d : Doc) : Int × Doc :=
  let r : MemberRecord := {
    dailyCooldown := getDailyCooldown d m g
    workCooldown := getWorkCooldown d m g
    weeklyCooldown := getWeeklyCooldown d m g
    money := some (fetch d m g)
    bank := some amount
    inventory := inventory d m g
    history := history d m g }
  (amount, setMember d g m r)

/-- `bankAdd(amount, memberID, guildID, reason)`. -/
def bankAdd (amount : Int) (m g : String) (d : Doc) : Int × Doc :=
  let money := orZero ((getMember d g m).bind (fun r => r.bank))
  let r : MemberRecord := {
    dailyCooldown := getDailyCooldown d m g
    workCooldown := getWorkCooldown d m g
    weeklyCooldown := getWeeklyCooldown d m g
    money := some (fetch d m g)
    bank := some (money + amount)
    inventory := inventory d m g
    history := history d m g }
  (amount, setMember d g m r)

/-- `bankSubtract(amount, memberID, guildID, reason)`. -/
def bankSubtract (amount : Int) (m g : String) (d : Doc) : Int × Doc :=
  let money := orZero ((getMember d g m).bind (fun r => r.bank))
  let r : MemberRecord := {
    dailyCooldown := getDailyCooldown d m g
    workCooldown := getWorkCooldown d m g
    weeklyCooldown := getWeeklyCooldown d m g
    money := some (fetch d m g)
    bank := some (money - amount)
    inventory := inventory d m g
    history := history d m g }
  (amount, setMember d g m r)

/-- Result of a daily/work/weekly claim: either the remaining cooldown time
(the source returns it as an `ms`-formatted string) or the granted reward. -/
inductive ClaimOutcome where
  | notClaimable (remaining : Int)
  | claimed (reward : Int)
deriving DecidableEq

/-- The mutation half of `daily`: stamps `dailyCooldown = Date.now()` in a
full member-record rewrite, persists, then calls `this.add(reward, ...)`. -/
def dailyGrant (reward : Int) (m g : String) (now : Int) (d : Doc) : ClaimOutcome × Doc :=
  let r : MemberRecord := {
    dailyCooldown := some now
    workCooldown := getWorkCooldown d m g
    weeklyCooldown := getWeeklyCooldown d m g
    money := some (fetch d m g)
    bank := some (bankFetch d m g)
    inventory := inventory d m g
    history := history d m g }
  (.claimed reward, (add reward m g (setMember d g m r)).2)

/-- `daily(memberID, guildID, reason)` with the configured cooldown duration,
reward amount and `Date.now()` as explicit parameters.  Reads
`cd = obj[guildID]?.[memberID]?.dailyCooldown || null` and returns the
remaining time when `cd !== null && cooldown - (Date.now() - cd) > 0`. -/
def daily (cdur reward : Int) (m g : String) (now : Int) (d : Doc) : ClaimOutcome × Doc :=
  match getDailyCooldown d m g with
  | some t =>
      if cdur - (now - t) > 0 then (.notClaimable (cdur - (now - t)), d)
      else dailyGrant reward m g now d
  | none => dailyGrant reward m g now d

/-- The mutation half of `work` (the reward passed in is the already-drawn
random amount, see `workReward`). -/
def workGrant (reward : Int) (m g : String) (now : Int) (d : Doc) : ClaimOutcome × Doc :=
  let r : MemberRecord := {
    dailyCooldown := getDailyCooldown d m g
    workCooldown := some now
    weeklyCooldown := getWeeklyCooldown d m g
    money := some (fetch d m g)
    bank := some (bankFetch d m g)
    inventory := inventory d m g
    history := history d m g }
  (.claimed reward, (add reward m g (setMember d g m r)).2)

/-- `work(memberID, guildID, reason)`. -/
def work (cdur reward : Int) (m g : String) (now : Int) (d : Doc) : ClaimOutcome × Doc :=
  match getWorkCooldown d m g with
  | some t =>
      if cdur - (now - t) > 0 then (.notClaimable (cdur - (now - t)), d)
      else workGrant reward m g now d
  | none => workGrant reward m g now d

/-- The mutation half of `weekly`. -/
def weeklyGrant (reward : Int) (m g : String) (now : Int) (d : Doc) : ClaimOutcome × Doc :=
  let r : MemberRecord := {
    dailyCooldown := getDailyCooldown d m g
    workCooldown := getWorkCooldown d m g
    weeklyCooldown := some now
    money := some (fetch d m g)
    bank := some (bankFetch d m g)
    inventory := inventory d m g
    history := history d m g }
  (.claimed reward, (add reward m g (setMember d g m r)).2)

/-- `weekly(memberID, guildID, reason)`. -/
def weekly (cdur reward : Int) (m g : String) (now : Int) (d : Doc) : ClaimOutcome × Doc :=
  match getWeeklyCooldown d m g with
  | some t =>
      if cdur - (now - t) > 0 then (.notClaimable (cdur - (now - t)), d)
      else weeklyGrant reward m g now d
  | none => weeklyGrant reward m g now d

/-- The random range draw of `work` in the legacy file:
`Math.ceil(Math.random() * (min - max) + max)` with `r = Math.random()`
(after `init` has sorted `workAmount` so that `min = workAmount[0] ≤ max`). -/
def workReward (mn mx : Int) (r : ℚ) : Int :=
  Int.ceil (r * ((mn : ℚ) - (mx : ℚ)) + (mx : ℚ))

/-- The random range draw of the mongodb `RewardManager` (`getDaily`,
`getWork`, `getWeekly`): `Math.floor(Math.random() * (min - max) + max)`. -/
def rewardDrawFloor (mn mx : Int) (r : ℚ) : Int :=
  Int.floor (r * ((mn : ℚ) - (mx : ℚ)) + (mx : ℚ))

/-- An item argument `itemID`, which the source accepts either as a number
or as a string (the item name). -/
inductive ItemKey where
  | byId (n : Int)
  | byName (s : String)
deriving DecidableEq

/-- Model of JavaScript `Number(s)` on a string operand of a loose `==`
comparison against an integer: `some n` when the string spells the
integer `n`. -/
def numOfString (s : String) : Option Int := s.toInt?

/-- Model of the lookup predicate `x.id == itemID || x.itemName == itemID`
on a shop item, including the numeric coercion performed by JavaScript
loose equality between a number and a string. -/
def matchesShopItem (k : ItemKey) (x : ShopItem) : Bool :=
  match k with
  | .byId n => decide (x.id = n) || decide (numOfString x.itemName = some n)
  | .byName s => decide (numOfString s = some x.id) || decide (x.itemName = s)

/-- The same lookup predicate on an inventory item (`shop.useItem`). -/
def matchesInvItem (k : ItemKey) (x : InventoryItem) : Bool :=
  match k with
  | .byId n => decide (x.id = n) || decide (numOfString x.itemName = some n)
  | .byName s => decide (numOfString s = some x.id) || decide (x.itemName = s)

/-- The `options` argument of `shop.addItem` (after its type validation:
`itemName` a string, `price` a number, the rest optional). -/
structure AddItemOptions where
  itemName : String
  price : Int
  message : Option String
  description : Option String
  maxAmount : Option Int
  role : Option String
deriving DecidableEq

/-- Models `String(s || dflt)`: an absent or empty (falsy) string argument
falls back to the default. -/
def orDefaultStr (o : Option String) (dflt : String) : String :=
  match o with
  | some s => if s = "" then dflt else s
  | none => dflt

/-- Models `s || null` on an optional string (`role`). -/
def orNullStr (o : Option String) : Option String :=
  match o with
  | some s => if s = "" then none else some s
  | none => none

/-- `shop.addItem(guildID, options)`: assigns
`id = shop.length ? shop.length + 1 : 1` (i.e. `length + 1`), appends the
item to the guild's shop and returns it.  The locale-formatted creation
date is the explicit `now` parameter. -/
def addItem (g : String) (opts : AddItemOptions) (now : String) (d : Doc) : ShopItem × Doc :=
  let shop := shopOf d g
  let itemInfo : ShopItem := {
    id := (shop.length : Int) + 1
    itemName := opts.itemName
    price := opts.price
    message := orDefaultStr opts.message "You have used this item!"
    description := orDefaultStr opts.description "Very mysterious item."
    maxAmount := opts.maxAmount
    role := orNullStr opts.role
    date := now }
  let gr := (getGuild d g).getD { members := [], shop := [] }
  (itemInfo, aset d g { gr with shop := shop ++ [itemInfo] })

/-- `shop.searchItem(itemID, guildID)`: first shop item matching by id or
name (`none` models the `false` return). -/
def searchItem (k : ItemKey) (g : String) (d : Doc) : Option ShopItem :=
  (shopOf d g).find? (fun x => matchesShopItem k x)

/-- `shop.removeItem(itemID, guildID)`: filters the first match out of the
catalog by its `id` (remaining ids are not renumbered). -/
def removeItem (k : ItemKey) (g : String) (d : Doc) : Bool × Doc :=
  match (shopOf d g).find? (fun x => matchesShopItem k x) with
  | none => (false, d)
  | some item =>
      let shop := (shopOf d g).filter (fun x => !decide (x.id = item.id))
      let gr := (getGuild d g).getD { members := [], shop := [] }
      (true, aset d g { gr with shop := shop })

/-- The value written by `shop.editItem` (`item[arg] = value`), one
constructor per recognized field name in
`['description', 'price', 'itemName', 'message', 'maxAmount', 'role']`;
carrying a payload models the `value == undefined` rejection. -/
inductive EditValue where
  | description (s : String)
  | price (p : Int)
  | itemName (s : String)
  | message (s : String)
  | maxAmount (v : Option Int)
  | role (s : Option String)
deriving DecidableEq

/-- `item[arg] = value` on a shop item. -/
def applyEdit (x : ShopItem) (e : EditValue) : ShopItem :=
  match e with
  | .description s => { x with description := s }
  | .price p => { x with price := p }
  | .itemName s => { x with itemName := s }
  | .message s => { x with message := s }
  | .maxAmount v => { x with maxAmount := v }
  | .role s => { x with role := s }

/-- The `findIndex` / `splice(i, 1, item)` pair inside `shop.editItem`:
replace the first matching item with its edited copy, `none` when
`findIndex` returns `-1`. -/
def editFirst (p : ShopItem → Bool) (e : EditValue) : List ShopItem → Option (List ShopItem)
  | [] => none
  | x :: rest =>
      if p x then some (applyEdit x e :: rest)
      else (editFirst p e rest).map (fun l => x :: l)

/-- `shop.editItem(itemID, guildID, arg, value)`: edits the first item
matching by id or name and persists; always returns `true` after its
argument validation, even when no item matched (the inner `edit` closure
just returns `null` in that case and nothing is written). -/
def editItem (k : ItemKey) (g : String) (e : EditValue) (d : Doc) : Bool × Doc :=
  match editFirst (fun x => matchesShopItem k x) e (shopOf d g) with
  | none => (true, d)
  | some shop =>
      let gr := (getGuild d g).getD { members := [], shop := [] }
      (true, aset d g { gr with shop := shop })

/-- Result of `shop.buy`: `false` / `'max'` / `true`. -/
inductive BuyResult where
  | notFound
  | maxReached
  | success
deriving DecidableEq

/-- The capacity test of `shop.buy`:
`item.maxAmount && inventory.filter(x => x.itemName == item.itemName).length >= item.maxAmount`
(a `maxAmount` of `null` - and, being falsy, also `0` - disables the check). -/
def maxHit (item : ShopItem) (invList : List InventoryItem) : Bool :=
  match item.maxAmount with
  | some cap =>
      if cap = 0 then false
      else decide (cap ≤ ((invList.filter (fun x => x.itemName = item.itemName)).length : Int))
  | none => false

/-- `shop.buy(itemID, memberID, guildID, reason)`.  Note the balance read
`const bal = obj[guildID]?.[memberID]?.money` has no `|| 0` default: when
the member record is absent `bal` is `undefined` and
`Number(bal) - Number(item.price)` is `NaN` (persisted as `null`, i.e.
`none`); when the record exists with `money: null`, `Number(null)` is `0`. -/
def buy (k : ItemKey) (m g : String) (now : String) (d : Doc) : BuyResult × Doc :=
  let data := getMember d g m
  match (shopOf d g).find? (fun x => matchesShopItem k x) with
  | none => (.notFound, d)
  | some item =>
      let invList := inventory d m g
      if maxHit item invList then (.maxReached, d)
      else
        let bal : Option Int :=
          match data with
          | none => none
          | some rec => some (orZero rec.money)
        let newInv : InventoryItem := {
          id := (invList.length : Int) + 1
          itemName := item.itemName
          price := item.price
          message := item.message
          role := item.role
          maxAmount := item.maxAmount
          date := now }
        let hist := (data.map (fun r => r.history)).getD []
        let newHist : HistoryItem := {
          id := (hist.length : Int) + 1
          memberID := m
          guildID := g
          itemName := item.itemName
          price := item.price
          role := item.role
          maxAmount := item.maxAmount
          date := now }
        let r : MemberRecord := {
          dailyCooldown := truthyTime (data.bind (fun r => r.dailyCooldown))
          workCooldown := truthyTime (data.bind (fun r => r.workCooldown))
          weeklyCooldown := truthyTime (data.bind (fun r => r.weeklyCooldown))
          money := bal.map (fun b => b - item.price)
          bank := some (orZero (data.bind (fun r => r.bank)))
          inventory := invList ++ [newInv]
          history := hist ++ [newHist] }
        (.success, setMember d g m r)

/-- `shop.useItem(itemID, memberID, guildID, client)`: the outer `none`
models the unguarded `obj[guildID][memberID] = ...` write throwing on an
absent guild (unreachable when an inventory item was found); the inner
`Option String` is the returned message, `none` modelling the `false`
return when no inventory item matches. -/
def useItem (k : ItemKey) (m g : String) (d : Doc) : Option (Option String × Doc) :=
  let data := getMember d g m
  let inv := (data.map (fun r => r.inventory)).getD []
  match inv.find? (fun x => matchesInvItem k x) with
  | none => some (none, d)
  | some item =>
      let invFiltered := inv.filter (fun x => !decide (x.id = item.id))
      let r : MemberRecord := {
        dailyCooldown := truthyTime (data.bind (fun r => r.dailyCooldown))
        workCooldown := truthyTime (data.bind (fun r => r.workCooldown))
        weeklyCooldown := truthyTime (data.bind (fun r => r.weeklyCooldown))
        money := some (orZero (data.bind (fun r => r.money)))
        bank := some (orZero (data.bind (fun r => r.bank)))
        inventory := invFiltered
        history := (data.map (fun r => r.history)).getD [] }
      (setMemberRaw d g m r).map (fun doc => (some item.message, doc))

/-- `shop.clearInventory(memberID, guildID)`: rewrites the member record
with an empty inventory.  The write `obj[guildID][memberID] = {...}` is NOT
preceded by the `if (!obj[guildID]) obj[guildID] = {}` guard the other
mutations use, so an absent guild makes the assignment throw a `TypeError`
(modelled as `none`). -/
def clearInventory (m g : String) (d : Doc) : Option (Bool × Doc) :=
  let data := getMember d g m
  let r : MemberRecord := {
    dailyCooldown := truthyTime (data.bind (fun r => r.dailyCooldown))
    workCooldown := truthyTime (data.bind (fun r => r.workCooldown))
    weeklyCooldown := truthyTime (data.bind (fun r => r.weeklyCooldown))
    money := some (orZero (data.bind (fun r => r.money)))
    bank := some (orZero (data.bind (fun r => r.bank)))
    inventory := []
    history := (data.map (fun r => r.history)).getD [] }
  (setMemberRaw d g m r).map (fun doc => (true, doc))

/-- `shop.clearHistory(memberID, guildID)`: same unguarded write as
`clearInventory`, resetting only `history`. -/
def clearHistory (m g : String) (d : Doc) : Option (Bool × Doc) :=
  let data := getMember d g m
  let r : MemberRecord := {
    dailyCooldown := truthyTime (data.bind (fun r => r.dailyCooldown))
    workCooldown := truthyTime (data.bind (fun r => r.workCooldown))
    weeklyCooldown := truthyTime (data.bind (fun r => r.weeklyCooldown))
    money := some (orZero (data.bind (fun r => r.money)))
    bank := some (orZero (data.bind (fun r => r.bank)))
    inventory := (data.map (fun r => r.inventory)).getD []
    history := [] }
  (setMemberRaw d g m r).map (fun doc => (true, doc))

theorem getMember_setMember (d : Doc) (g m : String) (r : MemberRecord) :
    getMember (setMember d g m r) g m = some r := by
  unfold getMember setMember getGuild
  rw [aget_aset_self]
  simp [aget_aset_self]

theorem fetch_setMember (d : Doc) (g m : String) (r : MemberRecord) :
    fetch (setMember d g m r) m g = orZero r.money := by
  unfold fetch
  rw [getMember_setMember]
  rfl

theorem bankFetch_setMember (d : Doc) (g m : String) (r : MemberRecord) :
    bankFetch (setMember d g m r) m g = orZero r.bank := by
  unfold bankFetch
  rw [getMember_setMember]
  rfl

theorem fetch_add (a : Int) (m g : String) (d : Doc) :
    fetch ((add a m g d).2) m g = fetch d m g + a := by
  unfold add
  rw [fetch_setMember]
  rfl

theorem fetch_subtract (a : Int) (m g : String) (d : Doc) :
    fetch ((subtract a m g d).2) m g = fetch d m g - a := by
  unfold subtract
  rw [fetch_setMember]
  rfl

theorem fetch_set (a : Int) (m g : String) (d : Doc) :
    fetch ((set a m g d).2) m g = a := by
  unfold set
  rw [fetch_setMember]
  rfl

theorem bankFetch_bankAdd (a : Int) (m g : String) (d : Doc) :
    bankFetch ((bankAdd a m g d).2) m g = bankFetch d m g + a := by
  unfold bankAdd
  rw [bankFetch_setMember]
  rfl

theorem bankFetch_bankSubtract (a : Int) (m g : String) (d : Doc) :
    bankFetch ((bankSubtract a m g d).2) m g = bankFetch d m g - a := by
  unfold bankSubtract
  rw [bankFetch_setMember]
  rfl

theorem bankFetch_bankSet (a : Int) (m g : String) (d : Doc) :
    bankFetch ((bankSet a m g d).2) m g = a := by
  unfold bankSet
  rw [bankFetch_setMember]
  rfl

theorem find?_eq_none_of_all {α : Type} (p : α → Bool) (l : List α)
    (h : ∀ x ∈ l, p x = false) : l.find? p = none := by
  induction l with
  | nil => rfl
  | cons hd tl ih =>
      have hhd := h hd (List.mem_cons_self hd tl)
      rw [List.find?_cons, hhd]
      exact ih (fun x hx => h x (List.mem_cons_of_mem hd hx))

theorem find?_append_of_all_false {α : Type} (p : α → Bool) (l1 l2 : List α)
    (h : ∀ x ∈ l1, p x = false) : (l1 ++ l2).find? p = l2.find? p := by
  induction l1 with
  | nil => rfl
  | cons hd tl ih =>
      have hhd := h hd (List.mem_cons_self hd tl)
      rw [List.cons_append, List.find?_cons, hhd]
      exact ih (fun x hx => h x (List.mem_cons_of_mem hd hx))

theorem editFirst_eq_none_of_all {p : ShopItem → Bool} {e : EditValue} {l : List ShopItem}
    (h : ∀ x ∈ l, p x = false) : editFirst p e l = none := by
  induction l with
  | nil => rfl
  | cons hd tl ih =>
      have hhd := h hd (List.mem_cons_self hd tl)
      simp only [editFirst, hhd, if_false, Bool.false_eq_true]
      rw [ih (fun x hx => h x (List.mem_cons_of_mem hd hx))]
      rfl

/-- A concrete member record with balance 5 in both purse and bank. -/
def c3Rec : MemberRecord :=
  { dailyCooldown := none, workCooldown := none, weeklyCooldown := none,
    money := some 5, bank := some 5, inventory := [], history := [] }

/-- A concrete document: guild `"G"`, member `"M"` with balance 5. -/
def c3Doc : Doc := [("G", { members := [("M", c3Rec)], shop := [] })]

/-- C3: the spec's contract `set|add|subtract(amount, ...) -> newAmount` fails
on the code for `add`/`subtract` (and the bank mirrors): with a starting
balance of 5, `add(3)` persists the new balance 8 but returns 3, and
`3 ≠ 8`; likewise `subtract` and `bankAdd`.  Only `set`/`bankSet` return the
post-operation balance. -/
theorem claim_C3_counterexample :
    (add 3 "M" "G" c3Doc).1 = 3 ∧ fetch ((add 3 "M" "G" c3Doc).2) "M" "G" = 8
    ∧ (subtract 3 "M" "G" c3Doc).1 = 3 ∧ fetch ((subtract 3 "M" "G" c3Doc).2) "M" "G" = 2
    ∧ (bankAdd 3 "M" "G" c3Doc).1 = 3 ∧ bankFetch ((bankAdd 3 "M" "G" c3Doc).2) "M" "G" = 8
    ∧ ((3 : Int) ≠ 8) := by
  refine ⟨rfl, by decide, rfl, by decide, rfl, by decide, by decide⟩

/-- C3 (amended): `set` and `bankSet` return `amount`, which is the new
persisted balance; `add`/`subtract`/`bankAdd`/`bankSubtract` also return the
`amount` argument (not the post-operation balance), while the persisted
balance is `current ± amount` with `current` the balance read at the start
of the operation. -/
theorem claim_C3_returns_amount_persists_balance (a : Int) (m g : String) (d : Doc) :
    (set a m g d).1 = a ∧ fetch ((set a m g d).2) m g = a
    ∧ (add a m g d).1 = a ∧ fetch ((add a m g d).2) m g = fetch d m g + a
    ∧ (subtract a m g d).1 = a ∧ fetch ((subtract a m g d).2) m g = fetch d m g - a
    ∧ (bankSet a m g d).1 = a ∧ bankFetch ((bankSet a m g d).2) m g = a
    ∧ (bankAdd a m g d).1 = a ∧ bankFetch ((bankAdd a m g d).2) m g = bankFetch d m g + a
    ∧ (bankSubtract a m g d).1 = a
    ∧ bankFetch ((bankSubtract a m g d).2) m g = bankFetch d m g - a :=
  ⟨rfl, fetch_set a m g d, rfl, fetch_add a m g d, rfl, fetch_subtract a m g d,
    rfl, bankFetch_bankSet a m g d, rfl, bankFetch_bankAdd a m g d,
    rfl, bankFetch_bankSubtract a m g d⟩

/-- C4: for every numeric `n`, member, guild and starting document,
`add(n)` followed by `subtract(n)` leaves the member's money balance
exactly equal to its original value. -/
theorem claim_C4_add_subtract_roundtrip (n : Int) (m g : String) (d : Doc) :
    fetch ((subtract n m g ((add n m g d).2)).2) m g = fetch d m g := by
  rw [fetch_subtract, fetch_add]
  omega

/-- C1: whenever the read cooldown timestamp of a kind is non-null and the
configured duration has not elapsed (`duration - (now - lastClaim) > 0`),
the claim operation of that kind returns the not-claimable outcome carrying
the (positive) remaining time and leaves the document - hence the member's
money, bank, all cooldown timestamps, inventory and history - unchanged. -/
theorem claim_C1_locked_claim_no_mutation (d : Doc) (m g : String) (now cdur rwd t : Int) :
    (getDailyCooldown d m g = some t → 0 < cdur - (now - t) →
      daily cdur rwd m g now d = (.notClaimable (cdur - (now - t)), d) ∧ 0 < cdur - (now - t))
    ∧ (getWorkCooldown d m g = some t → 0 < cdur - (now - t) →
      work cdur rwd m g now d = (.notClaimable (cdur - (now - t)), d) ∧ 0 < cdur - (now - t))
    ∧ (getWeeklyCooldown d m g = some t → 0 < cdur - (now - t) →
      weekly cdur rwd m g now d = (.notClaimable (cdur - (now - t)), d) ∧ 0 < cdur - (now - t)) := by
  refine ⟨fun h1 h2 => ⟨?_, h2⟩, fun h1 h2 => ⟨?_, h2⟩, fun h1 h2 => ⟨?_, h2⟩⟩
  · unfold daily
    rw [h1]
    simp [h2]
  · unfold work
    rw [h1]
    simp [h2]
  · unfold weekly
    rw [h1]
    simp [h2]

/-- A concrete member record whose three cooldown stamps are all 5. -/
def c1Rec : MemberRecord :=
  { dailyCooldown := some 5, workCooldown := some 5, weeklyCooldown := some 5,
    money := some 0, bank := some 0, inventory := [], history := [] }

/-- A concrete document for the C1 witness. -/
def c1Doc : Doc := [("G", { members := [("M", c1Rec)], shop := [] })]

/-- C1 witness: with `lastClaim = 5`, `now = 10` and a duration of 100, all
three claim kinds report 95 remaining and leave the document unchanged. -/
theorem claim_C1_witness :
    daily 100 7 "M" "G" 10 c1Doc = (.notClaimable 95, c1Doc)
    ∧ work 100 7 "M" "G" 10 c1Doc = (.notClaimable 95, c1Doc)
    ∧ weekly 100 7 "M" "G" 10 c1Doc = (.notClaimable 95, c1Doc) := by
  have h := claim_C1_locked_claim_no_mutation c1Doc "M" "G" 10 100 7 5
  exact ⟨(h.1 (by decide) (by decide)).1, (h.2.1 (by decide) (by decide)).1,
    (h.2.2 (by decide) (by decide)).1⟩

/-- A concrete catalog item of price 50 for the C2 evaluation. -/
def c2Item : ShopItem :=
  { id := 1, itemName := "apple", price := 50, message := "yum",
    description := "fruit", maxAmount := none, role := none, date := "jan" }

/-- A document whose guild `"G"` sells `c2Item` and holds no member record. -/
def c2Doc : Doc := [("G", { members := [], shop := [c2Item] })]

/-- A member record with `money: 0`. -/
def c2Rec : MemberRecord :=
  { dailyCooldown := none, workCooldown := none, weeklyCooldown := none,
    money := some 0, bank := some 0, inventory := [], history := [] }

/-- The same catalog with member `"M"` present at balance 0. -/
def c2DocPresent : Doc := [("G", { members := [("M", c2Rec)], shop := [c2Item] })]

/-- C2: `buy` for a member absent from the document succeeds and appends the
inventory and history items, but the debit `Number(bal) - Number(price)`
is computed from the raw read `bal = obj[guildID]?.[memberID]?.money`
without the `|| 0` default, so it yields `NaN` (persisted as `null`,
i.e. `none`) instead of the `0 - price = -50` the claim requires; a member
present with `money: 0` is debited to `-50` as claimed. -/
theorem claim_C2_absent_money_not_defaulted :
    (buy (.byId 1) "M" "G" "feb" c2Doc).1 = .success
    ∧ (getMember (buy (.byId 1) "M" "G" "feb" c2Doc).2 "G" "M").map (fun r => r.money)
        = some none
    ∧ (getMember (buy (.byId 1) "M" "G" "feb" c2Doc).2 "G" "M").map
        (fun r => (r.inventory.map (fun x => x.id), r.history.map (fun x => x.id)))
        = some ([1], [1])
    ∧ (getMember (buy (.byId 1) "M" "G" "feb" c2DocPresent).2 "G" "M").map (fun r => r.money)
        = some (some (-50)) := by
  refine ⟨rfl, rfl, rfl, by decide⟩

/-- A catalog item carrying `maxAmount: 0`, constructible through
`addItem(guildID, { ..., maxAmount: 0 })`. -/
def c5Item : ShopItem :=
  { id := 1, itemName := "hat", price := 3, message := "m",
    description := "d", maxAmount := some 0, role := none, date := "jan" }

/-- A member with balance 10 and an empty inventory. -/
def c5Rec : MemberRecord :=
  { dailyCooldown := none, workCooldown := none, weeklyCooldown := none,
    money := some 10, bank := some 0, inventory := [], history := [] }

/-- Document for the C5 counterexample. -/
def c5Doc : Doc := [("G", { members := [("M", c5Rec)], shop := [c5Item] })]

/-- C5 counterexample: the item's `maxAmount` is set (to 0) and the member
already holds `≥ maxAmount` matching items, yet `buy` does not return the
max-reached outcome - `0` is falsy, so `item.maxAmount && ...` skips the
capacity check, the purchase succeeds and the document changes. -/
theorem claim_C5_counterexample :
    c5Item.maxAmount = some 0
    ∧ (0 : Int) ≤ (((inventory c5Doc "M" "G").filter
        (fun x => x.itemName = c5Item.itemName)).length : Int)
    ∧ (buy (.byId 1) "M" "G" "feb" c5Doc).1 = .success
    ∧ (buy (.byId 1) "M" "G" "feb" c5Doc).2 ≠ c5Doc := by
  refine ⟨rfl, by decide, rfl, by decide⟩

/-- C5 (amended): for every catalog item found for the key whose `maxAmount`
is set and nonzero, if the member's inventory already holds at least
`maxAmount` items with that `itemName`, `buy` returns the max-reached
outcome and leaves the document unchanged. -/
theorem claim_C5_max_reached_no_mutation (d : Doc) (m g : String) (now : String) (k : ItemKey)
    (item : ShopItem) (cap : Int)
    (hfind : (shopOf d g).find? (fun x => matchesShopItem k x) = some item)
    (hcap : item.maxAmount = some cap) (hcap0 : cap ≠ 0)
    (hholds : cap ≤ (((inventory d m g).filter
      (fun x => x.itemName = item.itemName)).length : Int)) :
    buy k m g now d = (.maxReached, d) := by
  have hmax : maxHit item (inventory d m g) = true := by
    unfold maxHit
    rw [hcap]
    simp [hcap0, hholds]
  unfold buy
  rw [hfind]
  simp [hmax]

/-- The single inventory item held for the C5 witness. -/
def c5wInv : InventoryItem :=
  { id := 1, itemName := "hat", price := 3, message := "m",
    role := none, maxAmount := some 1, date := "jan" }

/-- A catalog item with `maxAmount: 1`. -/
def c5wItem : ShopItem :=
  { id := 1, itemName := "hat", price := 3, message := "m",
    description := "d", maxAmount := some 1, role := none, date := "jan" }

/-- A member already holding one `"hat"`. -/
def c5wRec : MemberRecord :=
  { dailyCooldown := none, workCooldown := none, weeklyCooldown := none,
    money := some 10, bank := some 0, inventory := [c5wInv], history := [] }

/-- Document for the C5 witness. -/
def c5wDoc : Doc := [("G", { members := [("M", c5wRec)], shop := [c5wItem] })]

/-- C5 witness: a second purchase of a `maxAmount: 1` item is refused
without mutation. -/
theorem claim_C5_witness : buy (.byId 1) "M" "G" "feb" c5wDoc = (.maxReached, c5wDoc) :=
  claim_C5_max_reached_no_mutation c5wDoc "M" "G" "feb" (.byId 1) c5wItem 1
    (by decide) rfl (by decide) (by decide)

/-- C6: the legacy range draw is not a uniform draw from the closed interval
`[min, max]`: for `min < max` and every `r = Math.random() ∈ [0, 1)`, the
`work` formula `ceil(r * (min - max) + max)` lands in `[min + 1, max]`, so
the integer `min` is never a possible outcome; and the mongodb `floor`
variant produces `max` only when `r` is exactly `0` (an event of
probability zero), so its outcomes are not equally probable either. -/
theorem claim_C6_range_draw_misses_min (mn mx : Int) (r : ℚ)
    (h0 : 0 ≤ r) (h1 : r < 1) (hlt : mn < mx) :
    (mn + 1 ≤ workReward mn mx r ∧ workReward mn mx r ≤ mx)
    ∧ (rewardDrawFloor mn mx r = mx ↔ r = 0) := by
  have hneg : (mn : ℚ) - (mx : ℚ) < 0 := by
    rw [sub_neg]
    exact_mod_cast hlt
  have hv1 : r * ((mn : ℚ) - (mx : ℚ)) + (mx : ℚ) ≤ (mx : ℚ) := by
    have := mul_nonpos_of_nonneg_of_nonpos h0 hneg.le
    linarith
  have hv2 : (mn : ℚ) < r * ((mn : ℚ) - (mx : ℚ)) + (mx : ℚ) := by
    have hprod : 0 < (1 - r) * ((mx : ℚ) - (mn : ℚ)) := by
      apply mul_pos
      · linarith
      · rw [sub_pos]
        exact_mod_cast hlt
    nlinarith
  refine ⟨⟨?_, ?_⟩, ?_, ?_⟩
  · rw [Int.add_one_le_iff]
    exact Int.lt_ceil.mpr hv2
  · exact Int.ceil_le.mpr hv1
  · intro hfl
    by_contra hr0
    have hrpos : 0 < r := lt_of_le_of_ne h0 (fun h => hr0 h.symm)
    have hle : (mx : ℚ) ≤ r * ((mn : ℚ) - (mx : ℚ)) + (mx : ℚ) := by
      have hfloor := Int.floor_le (r * ((mn : ℚ) - (mx : ℚ)) + (mx : ℚ))
      rw [rewardDrawFloor] at hfl
      rw [hfl] at hfloor
      exact_mod_cast hfloor
    have := mul_neg_of_pos_of_neg hrpos hneg
    linarith
  · intro hr
    subst hr
    simp [rewardDrawFloor]

/-- C6 witness: with `workAmount = [10, 50]` and `r = 1/2`, the drawn reward
lies in `[11, 50]` (it is in fact 30), never 10, and the floor variant
equals 50 only if `r = 0`. -/
theorem claim_C6_witness :
    ((0 : ℚ) ≤ 1/2 ∧ (1/2 : ℚ) < 1 ∧ (10 : Int) < 50)
    ∧ ((10 + 1 ≤ workReward 10 50 (1/2) ∧ workReward 10 50 (1/2) ≤ 50)
      ∧ (rewardDrawFloor 10 50 (1/2) = 50 ↔ (1/2 : ℚ) = 0)) :=
  ⟨⟨by norm_num, by norm_num, by norm_num⟩,
    claim_C6_range_draw_misses_min 10 50 (1/2) (by norm_num) (by norm_num) (by norm_num)⟩

/-- A catalog holding a single item whose id is 2 (the state left by adding
two items and removing the first: ids are not renumbered). -/
def c7Old : ShopItem :=
  { id := 2, itemName := "old", price := 5, message := "m",
    description := "d", maxAmount := none, role := none, date := "jan" }

/-- Document for the C7 counterexample. -/
def c7Doc : Doc := [("G", { members := [], shop := [c7Old] })]

/-- Options for the freshly added item in the C7 counterexample. -/
def c7Opts : AddItemOptions :=
  { itemName := "new", price := 7, message := none, description := none,
    maxAmount := none, role := none }

/-- C7 counterexample: on a catalog of length 1 whose only item already has
id 2 (ids survive deletions unrenumbered), `addItem` assigns the new item
`id = length + 1 = 2` as well, and `searchItem` by that id returns the
earlier item, not the record `addItem` returned. -/
theorem claim_C7_counterexample :
    (addItem "G" c7Opts "feb" c7Doc).1.id = 2
    ∧ searchItem (.byId 2) "G" (addItem "G" c7Opts "feb" c7Doc).2 = some c7Old
    ∧ some c7Old ≠ some (addItem "G" c7Opts "feb" c7Doc).1 := by
  refine ⟨rfl, rfl, by decide⟩

theorem shopOf_addItem (g now : String) (opts : AddItemOptions) (d : Doc) :
    shopOf ((addItem g opts now d).2) g = shopOf d g ++ [(addItem g opts now d).1] := by
  simp [shopOf, addItem, getGuild, aget_aset_self]

/-- C7 (amended): provided no existing catalog item already matches the id
the new item will receive (`length + 1`) and none matches the new item's
name, `addItem` followed by `searchItem` - by the returned id and by the
item name - returns exactly the record `addItem` returned. -/
theorem claim_C7_roundtrip_when_fresh (d : Doc) (g now : String) (opts : AddItemOptions)
    (hid : ∀ x ∈ shopOf d g, matchesShopItem (.byId ((addItem g opts now d).1.id)) x = false)
    (hname : ∀ x ∈ shopOf d g, matchesShopItem (.byName opts.itemName) x = false) :
    searchItem (.byId ((addItem g opts now d).1.id)) g ((addItem g opts now d).2)
      = some ((addItem g opts now d).1)
    ∧ searchItem (.byName opts.itemName) g ((addItem g opts now d).2)
      = some ((addItem g opts now d).1) := by
  have hself_id : matchesShopItem (.byId ((addItem g opts now d).1.id))
      ((addItem g opts now d).1) = true := by
    simp [matchesShopItem]
  have hself_name : matchesShopItem (.byName opts.itemName) ((addItem g opts now d).1) = true := by
    have hn : (addItem g opts now d).1.itemName = opts.itemName := rfl
    simp [matchesShopItem, hn]
  constructor
  · unfold searchItem
    rw [shopOf_addItem, find?_append_of_all_false _ _ _ hid, List.find?_cons, hself_id]
  · unfold searchItem
    rw [shopOf_addItem, find?_append_of_all_false _ _ _ hname, List.find?_cons, hself_name]

/-- Options for the C7 witness. -/
def c7wOpts : AddItemOptions :=
  { itemName := "sword", price := 9, message := none, description := none,
    maxAmount := none, role := none }

/-- C7 witness: adding to an empty catalog and searching by the returned id
and by the item name both return the returned record. -/
theorem claim_C7_witness :
    searchItem (.byId ((addItem "G" c7wOpts "t" ([] : Doc)).1.id)) "G"
      ((addItem "G" c7wOpts "t" ([] : Doc)).2) = some ((addItem "G" c7wOpts "t" ([] : Doc)).1)
    ∧ searchItem (.byName c7wOpts.itemName) "G" ((addItem "G" c7wOpts "t" ([] : Doc)).2)
      = some ((addItem "G" c7wOpts "t" ([] : Doc)).1) :=
  claim_C7_roundtrip_when_fresh [] "G" "t" c7wOpts
    (fun x hx => by simp [shopOf, getGuild, aget] at hx)
    (fun x hx => by simp [shopOf, getGuild, aget] at hx)

/-- C8: `clearInventory` and `clearHistory` do not lazily create an absent
guild: they assign `obj[guildID][memberID]` without the
`if (!obj[guildID]) obj[guildID] = {}` guard used by every other mutation,
so on a document without the guild the assignment throws a `TypeError`
(modelled as `none`), while for example `set` on the same document succeeds
and lazily creates both records. -/
theorem claim_C8_clear_throws_on_absent_guild :
    clearInventory "M" "G" ([] : Doc) = none
    ∧ clearHistory "M" "G" ([] : Doc) = none
    ∧ fetch ((set 5 "M" "G" ([] : Doc)).2) "M" "G" = 5
    ∧ getMember ((set 5 "M" "G" ([] : Doc)).2) "G" "M" ≠ none := by
  refine ⟨rfl, rfl, by decide, by decide⟩

/-- C9: when no inventory item of the member matches the key by id or name,
`useItem` returns `false` and leaves the document - hence inventory and
history - unchanged. -/
theorem claim_C9_useItem_absent_returns_false (d : Doc) (m g : String) (k : ItemKey)
    (h : ∀ x ∈ inventory d m g, matchesInvItem k x = false) :
    useItem k m g d = some (none, d) := by
  have hfind : (((getMember d g m).map (fun r => r.inventory)).getD []).find?
      (fun x => matchesInvItem k x) = none := find?_eq_none_of_all _ _ h
  simp only [useItem, hfind]

/-- C9 witness: using an item on an empty document returns `false` and
changes nothing. -/
theorem claim_C9_witness : useItem (.byId 9) "M" "G" ([] : Doc) = some (none, ([] : Doc)) :=
  claim_C9_useItem_absent_returns_false [] "M" "G" (.byId 9)
    (fun x hx => by simp [inventory, getMember, getGuild, aget] at hx)

/-- C10: for every recognized field name and defined value, `editItem`
returns `true` even when no shop item of the guild matches the key by id or
name, and in that no-match case the document is left unchanged - the `true`
return does not indicate that an edit occurred. -/
theorem claim_C10_editItem_true_without_match (d : Doc) (g : String) (k : ItemKey) (e : EditValue)
    (h : ∀ x ∈ shopOf d g, matchesShopItem k x = false) :
    editItem k g e d = (true, d) := by
  unfold editItem
  rw [editFirst_eq_none_of_all (fun x hx => h x hx)]

/-- C10 witness: editing the price of a non-existent item on an empty
document returns `true` and changes nothing. -/
theorem claim_C10_witness : editItem (.byId 3) "G" (.price 5) ([] : Doc) = (true, ([] : Doc)) :=
  claim_C10_editItem_true_without_match [] "G" (.byId 3) (.price 5)
    (fun x hx => by simp [shopOf, getGuild, aget] at hx)

end Economy
